import Mathlib

/-!
Textured quads: sparse bindless texture array (OpenGL solution).

Shallow embedding of
`src/solutions/texturedquads/gl/sparsebindlesstexturearray.cpp`
(`TexturedQuadsGLSparseBindlessTextureArray::Init`, `::Render`, `::Shutdown`).

The graphics API is an explicit context value (`GLContext`) threaded through
every call; each `gl*` function of the source is a Lean function of the same
name acting on that context.  Undefined behaviour and failed assertions are
explicit `Trap` results.
-/

namespace TexturedQuads

/-! ## Data model -/

/-- A `TexAddress` is the 64-bit bindless handle returned by `Texture::GetAddress`. -/
abbrev TexAddress := Nat

/-- A `TextureDetails*` as supplied by the caller, identified by its pointer value. -/
abbrev TextureDetailsPtr := Nat

/-- An `Index` is a 16-bit unsigned index into the vertex buffer. -/
abbrev Index := Nat

/-- Vertex of the problem: three position floats and two texture-coordinate
floats, kept as raw 32-bit words (their values never influence control flow). -/
structure Vertex where
  pos : List Nat
  tex : List Nat
deriving DecidableEq, Repr

/-- A 4x4 transform, kept as the raw words of its sixteen floats. -/
structure Matrix where
  cells : List Nat
deriving DecidableEq, Repr

/-- A GPU-resident texture object handed out by the texture manager. -/
structure Texture where
  id : Nat
  details : TextureDetailsPtr
  address : TexAddress
deriving DecidableEq, Repr

/-- Capabilities toggled by `glEnable` and `glDisable` in this file. -/
inductive Capability
  | GL_CULL_FACE
  | GL_SCISSOR_TEST
  | GL_BLEND
  | GL_DEPTH_TEST
deriving DecidableEq, Repr

/-- Argument of `glCullFace`: which faces are discarded. -/
inductive FaceMode
  | GL_FRONT
  | GL_BACK
  | GL_FRONT_AND_BACK
deriving DecidableEq, Repr

/-- Argument of `glFrontFace`. -/
inductive Winding
  | GL_CW
  | GL_CCW
deriving DecidableEq, Repr

/-- Buffer binding targets used by this file. -/
inductive BufferTarget
  | GL_ARRAY_BUFFER
  | GL_ELEMENT_ARRAY_BUFFER
  | GL_SHADER_STORAGE_BUFFER
deriving DecidableEq, Repr

/-- Usage hints passed to the buffer uploads. -/
inductive Usage
  | GL_STATIC_DRAW
  | GL_DYNAMIC_DRAW
deriving DecidableEq, Repr

/-- Primitive mode of a draw. -/
inductive PrimitiveMode
  | GL_TRIANGLES
deriving DecidableEq, Repr

/-- Index type of a draw. -/
inductive IndexType
  | GL_UNSIGNED_SHORT
deriving DecidableEq, Repr

/-- Contents of a buffer data store: the vector that was uploaded. -/
inductive Payload
  | vertices (data : List Vertex)
  | indices (data : List Index)
  | transforms (data : List Matrix)
  | texAddresses (data : List TexAddress)
deriving DecidableEq, Repr

/-- GPU objects whose creation and destruction is tracked. -/
inductive Resource
  | buffer (name : Nat)
  | vertexArray (name : Nat)
  | program (handle : Nat)
  | texture (t : Texture)
deriving DecidableEq, Repr

/-- Fixed-function state set by the rasterizer, blend and depth calls. -/
structure Pipeline where
  cullFace : Bool
  cullFaceMode : FaceMode
  frontFace : Winding
  scissorTest : Bool
  blend : Bool
  colorMask : Bool × Bool × Bool × Bool
  depthTest : Bool
  depthMask : Bool
deriving DecidableEq, Repr

/-- One `glVertexAttribPointer` specification (component type is `GL_FLOAT`,
not normalised, in both calls of this file). -/
structure AttribPointer where
  size : Nat
  stride : Nat
  offset : Nat
deriving DecidableEq, Repr

/-- Uniform updates and draws, in the order they are issued.  A draw records
the fixed-function state in force when it is issued. -/
inductive Command
  | glUniformMatrix4fv (location : Int) (transpose : Bool) (value : Matrix)
  | glUniform1i (location : Int) (v0 : Nat)
  | glDrawElements (mode : PrimitiveMode) (count : Nat) (type : IndexType) (pipeline : Pipeline)
deriving DecidableEq, Repr

/-- Ways in which execution stops without returning. -/
inductive Trap
  | assertionFailed
  | readPastEnd (dstIndex : Nat)
deriving DecidableEq, Repr

/-- The rendering context: everything the graphics API remembers. -/
structure GLContext where
  errorFlag : Nat
  nextName : Nat
  created : List Resource
  deleted : List Resource
  store : Nat → Option (Usage × Payload)
  binding : BufferTarget → Nat
  storageSlot : Nat → Nat
  vertexArray : Nat
  program : Nat
  attribPointer : Nat → Option AttribPointer
  attribEnabled : Nat → Bool
  pipeline : Pipeline
  commands : List Command

/-- Uniform locations resolved by the program loader. -/
structure UniformLocation where
  ViewProjection : Int
  DrawID : Int
deriving DecidableEq, Repr

/-- Data members of `TexturedQuadsGLSparseBindlessTextureArray` (those of the
base class `TexturedQuadsSolution` included). -/
structure Solution where
  mIndexBuffer : Nat
  mVertexBuffer : Nat
  mProgram : Nat
  mTransformBuffer : Nat
  mTexAddressBuffer : Nat
  mVAO : Nat
  mUniformLocation : UniformLocation
  mTextures : List Texture
  mTexManagerUp : Bool
  mObjectCount : Nat
  mIndexCount : Nat
  mProj : Matrix

/-- The object together with the rendering context it talks to. -/
structure State where
  obj : Solution
  gl : GLContext

/-- Call sites of `Init` at which the graphics API may record an error. -/
inductive Site
  | texManagerInit
  | createProgram
  | newTexture (k : Nat)
  | newVertexBuffer
  | newIndexBuffer
  | genTransformBuffer
  | bindTransformBuffer
  | newTexAddressBuffer
  | bindTexAddressBuffer
  | genVertexArrays
  | bindVertexArray
deriving DecidableEq, Repr

/-- The collaborators outside this file, as seen from it: results of the base
initializer, of the texture manager and of the program loader, presence of the
bindless entry point, the handle given to each new texture, the error code
(0 is `GL_NO_ERROR`) the API records at each call site of `Init`, and the
camera product `mProj * view` computed by the math library. -/
structure Env where
  baseInit : Bool
  texManagerInit : Bool
  glGetTextureHandleARB : Bool
  program : Nat
  uniformLocation : UniformLocation
  texAddress : Nat → TexAddress
  fault : Site → Nat
  viewProj : Matrix → Matrix

/-- The value of `GL_NO_ERROR`. -/
def GL_NO_ERROR : Nat := 0

/-- The value of `sizeof(TexturedQuadsProblem::Vertex)`: five floats. -/
def sizeofVertex : Nat := 20

/-- The value of `offsetof(TexturedQuadsProblem::Vertex, pos)`. -/
def offsetofPos : Nat := 0

/-- The value of `offsetof(TexturedQuadsProblem::Vertex, tex)`. -/
def offsetofTex : Nat := 12

/-! ## The graphics API -/

/-- Recording of an error: the flag keeps the first code until it is read. -/
def raise (code : Nat) (gl : GLContext) : GLContext :=
  { gl with errorFlag := if gl.errorFlag = GL_NO_ERROR then code else gl.errorFlag }

/-- Model of `glGetError`: returns the flag and resets it. -/
def glGetError (gl : GLContext) : Nat × GLContext :=
  (gl.errorFlag, { gl with errorFlag := GL_NO_ERROR })

/-- Model of `glGenBuffers(1, &name)`: a fresh name, whose buffer object has no
data store yet. -/
def glGenBuffers (gl : GLContext) : Nat × GLContext :=
  (gl.nextName,
   { gl with
     nextName := gl.nextName + 1
     created := gl.created ++ [Resource.buffer gl.nextName]
     store := fun n => if n = gl.nextName then none else gl.store n })

/-- Model of `glBindBuffer(target, name)`. -/
def glBindBuffer (target : BufferTarget) (name : Nat) (gl : GLContext) : GLContext :=
  { gl with binding := fun t => if t = target then name else gl.binding t }

/-- Model of `glBindBufferBase(GL_SHADER_STORAGE_BUFFER, index, name)`: binds
the indexed slot and the generic binding point of the target. -/
def glBindBufferBase (target : BufferTarget) (index : Nat) (name : Nat) (gl : GLContext) :
    GLContext :=
  { gl with
    storageSlot := fun i => if i = index then name else gl.storageSlot i
    binding := fun t => if t = target then name else gl.binding t }

/-- Framework helper `BufferData(target, vector, usage)`: replaces the whole
data store of the buffer bound to `target`. -/
def BufferData (target : BufferTarget) (data : Payload) (usage : Usage) (gl : GLContext) :
    GLContext :=
  { gl with store := fun n => if n = gl.binding target then some (usage, data) else gl.store n }

/-- Framework helper `NewBufferFromVector(target, vector, usage)`: a fresh
buffer holding the vector; returns its name. -/
def NewBufferFromVector (target : BufferTarget) (data : Payload) (usage : Usage)
    (gl : GLContext) : Nat × GLContext :=
  let r := glGenBuffers gl
  (r.1, BufferData target data usage (glBindBuffer target r.1 r.2))

/-- Model of `glGenVertexArrays(1, &name)`. -/
def glGenVertexArrays (gl : GLContext) : Nat × GLContext :=
  (gl.nextName,
   { gl with
     nextName := gl.nextName + 1
     created := gl.created ++ [Resource.vertexArray gl.nextName] })

/-- Model of `glBindVertexArray(name)`. -/
def glBindVertexArray (name : Nat) (gl : GLContext) : GLContext :=
  { gl with vertexArray := name }

/-- Model of `glUseProgram(program)`. -/
def glUseProgram (program : Nat) (gl : GLContext) : GLContext :=
  { gl with program := program }

/-- Model of `glUniformMatrix4fv(location, 1, transpose, value)`. -/
def glUniformMatrix4fv (location : Int) (transpose : Bool) (value : Matrix) (gl : GLContext) :
    GLContext :=
  { gl with commands := gl.commands ++ [Command.glUniformMatrix4fv location transpose value] }

/-- Model of `glUniform1i(location, v0)`; `v0` is the value the caller passes. -/
def glUniform1i (location : Int) (v0 : Nat) (gl : GLContext) : GLContext :=
  { gl with commands := gl.commands ++ [Command.glUniform1i location v0] }

/-- Model of `glVertexAttribPointer(index, size, GL_FLOAT, GL_FALSE, stride, offset)`. -/
def glVertexAttribPointer (index size stride offset : Nat) (gl : GLContext) : GLContext :=
  { gl with
    attribPointer := fun i =>
      if i = index then some { size := size, stride := stride, offset := offset }
      else gl.attribPointer i }

/-- Model of `glEnableVertexAttribArray(index)`. -/
def glEnableVertexAttribArray (index : Nat) (gl : GLContext) : GLContext :=
  { gl with attribEnabled := fun i => if i = index then true else gl.attribEnabled i }

/-- Model of `glDisableVertexAttribArray(index)`. -/
def glDisableVertexAttribArray (index : Nat) (gl : GLContext) : GLContext :=
  { gl with attribEnabled := fun i => if i = index then false else gl.attribEnabled i }

/-- Sets one capability bit of the fixed-function state. -/
def setCapability (cap : Capability) (flag : Bool) (p : Pipeline) : Pipeline :=
  match cap with
  | Capability.GL_CULL_FACE => { p with cullFace := flag }
  | Capability.GL_SCISSOR_TEST => { p with scissorTest := flag }
  | Capability.GL_BLEND => { p with blend := flag }
  | Capability.GL_DEPTH_TEST => { p with depthTest := flag }

/-- Model of `glEnable(cap)`. -/
def glEnable (cap : Capability) (gl : GLContext) : GLContext :=
  { gl with pipeline := setCapability cap true gl.pipeline }

/-- Model of `glDisable(cap)`. -/
def glDisable (cap : Capability) (gl : GLContext) : GLContext :=
  { gl with pipeline := setCapability cap false gl.pipeline }

/-- Model of `glCullFace(mode)`. -/
def glCullFace (mode : FaceMode) (gl : GLContext) : GLContext :=
  { gl with pipeline := { gl.pipeline with cullFaceMode := mode } }

/-- Model of `glFrontFace(dir)`. -/
def glFrontFace (dir : Winding) (gl : GLContext) : GLContext :=
  { gl with pipeline := { gl.pipeline with frontFace := dir } }

/-- Model of `glColorMask(r, g, b, a)`. -/
def glColorMask (r g b a : Bool) (gl : GLContext) : GLContext :=
  { gl with pipeline := { gl.pipeline with colorMask := (r, g, b, a) } }

/-- Model of `glDepthMask(flag)`. -/
def glDepthMask (flag : Bool) (gl : GLContext) : GLContext :=
  { gl with pipeline := { gl.pipeline with depthMask := flag } }

/-- Model of `glDrawElements(mode, count, type, 0)`: the draw is appended to the
command stream together with the fixed-function state it is issued under. -/
def glDrawElements (mode : PrimitiveMode) (count : Nat) (type : IndexType) (gl : GLContext) :
    GLContext :=
  { gl with commands := gl.commands ++ [Command.glDrawElements mode count type gl.pipeline] }

/-- Model of `glDeleteBuffers(1, &name)`. -/
def glDeleteBuffers (name : Nat) (gl : GLContext) : GLContext :=
  { gl with
    deleted := gl.deleted ++ [Resource.buffer name]
    store := fun n => if n = name then none else gl.store n
    binding := fun t => if gl.binding t = name then 0 else gl.binding t }

/-- Model of `glDeleteVertexArrays(1, &name)`. -/
def glDeleteVertexArrays (name : Nat) (gl : GLContext) : GLContext :=
  { gl with
    deleted := gl.deleted ++ [Resource.vertexArray name]
    vertexArray := if gl.vertexArray = name then 0 else gl.vertexArray }

/-- Model of `glDeleteProgram(program)`. -/
def glDeleteProgram (program : Nat) (gl : GLContext) : GLContext :=
  { gl with deleted := gl.deleted ++ [Resource.program program] }

/-! ## The solution -/

/-- Constructor: all handles value-initialised, no texture owned. -/
def construct (proj : Matrix) : Solution :=
  { mIndexBuffer := 0
    mVertexBuffer := 0
    mProgram := 0
    mTransformBuffer := 0
    mTexAddressBuffer := 0
    mVAO := 0
    mUniformLocation := { ViewProjection := 0, DrawID := 0 }
    mTextures := []
    mTexManagerUp := false
    mObjectCount := 0
    mIndexCount := 0
    mProj := proj }

/-- Modelled from the spec: the base initializer `TexturedQuadsSolution::Init`,
whose body is not in this file.  It records the object count and the number of
indices, and reports success or failure. -/
def TexturedQuadsSolution_Init (env : Env) (_indices : List Index) (_objectCount : Nat)
    (obj : Solution) : Bool × Solution :=
  (env.baseInit, { obj with mObjectCount := _objectCount, mIndexCount := _indices.length })

/-- Modelled from the spec: `mTexManager.newTexture2DFromDetails(details)`, a
collaborator outside this file.  It yields a new resident texture that
remembers its descriptor and exposes a bindless address. -/
def newTexture2DFromDetails (env : Env) (details : TextureDetailsPtr) (gl : GLContext) :
    Texture × GLContext :=
  let t : Texture := { id := gl.nextName, details := details, address := env.texAddress gl.nextName }
  (t, { gl with nextName := gl.nextName + 1, created := gl.created ++ [Resource.texture t] })

/-- Lines 50-52: one texture per descriptor, pushed back in input order;
`k` counts the descriptors already consumed. -/
def createTextures (env : Env) :
    List TextureDetailsPtr → Nat → List Texture → GLContext → List Texture × GLContext
  | [], _, mTextures, gl => (mTextures, gl)
  | details :: rest, k, mTextures, gl =>
      let r := newTexture2DFromDetails env details gl
      createTextures env rest (k + 1) (mTextures ++ [r.1]) (raise (env.fault (Site.newTexture k)) r.2)

/-- Lines 63-70: the loop over the destination slots.  `remaining` is the
distance from `dstIt` to `texAddressContents.end()`, `srcIt` the position of
the source iterator in `mTextures` (its length standing for `cend()`).
Dereferencing the source iterator at `cend()` is a read past the end. -/
def fillTexAddressContents (mTextures : List Texture) :
    Nat → Nat → Nat → List TexAddress → Except Trap (List TexAddress)
  | 0, _, _, contents => Except.ok contents
  | remaining + 1, dstIt, srcIt, contents =>
      let srcIt1 := if srcIt = mTextures.length then 0 else srcIt
      match mTextures[srcIt1]? with
      | none => Except.error (Trap.readPastEnd dstIt)
      | some texture =>
          fillTexAddressContents mTextures remaining (dstIt + 1) (srcIt1 + 1)
            (contents.set dstIt texture.address)

/-- Lines 61-70: `texAddressContents(_objectCount)` is value-initialised and
then filled from `mTextures`, starting at `cbegin()`. -/
def buildTexAddressContents (mTextures : List Texture) (_objectCount : Nat) :
    Except Trap (List TexAddress) :=
  fillTexAddressContents mTextures _objectCount 0 0 (List.replicate _objectCount 0)

/-- Lines 55-59: the static vertex and index buffers, and the transform buffer
bound at storage slot 0. -/
def initGeometryBuffers (env : Env) (_vertices : List Vertex) (_indices : List Index)
    (s : State) : State :=
  let vb := NewBufferFromVector BufferTarget.GL_ARRAY_BUFFER (Payload.vertices _vertices)
    Usage.GL_STATIC_DRAW s.gl
  let gl := raise (env.fault Site.newVertexBuffer) vb.2
  let ib := NewBufferFromVector BufferTarget.GL_ELEMENT_ARRAY_BUFFER (Payload.indices _indices)
    Usage.GL_STATIC_DRAW gl
  let gl := raise (env.fault Site.newIndexBuffer) ib.2
  let tb := glGenBuffers gl
  let gl := raise (env.fault Site.genTransformBuffer) tb.2
  let gl := raise (env.fault Site.bindTransformBuffer)
    (glBindBufferBase BufferTarget.GL_SHADER_STORAGE_BUFFER 0 tb.1 gl)
  { obj := { s.obj with mVertexBuffer := vb.1, mIndexBuffer := ib.1, mTransformBuffer := tb.1 }
    gl := gl }

/-- Lines 72-78: the address table uploaded and bound at storage slot 1, the
vertex array object, and the final error query that decides the result. -/
def initTableBuffers (env : Env) (texAddressContents : List TexAddress) (s : State) :
    Bool × State :=
  let ab := NewBufferFromVector BufferTarget.GL_SHADER_STORAGE_BUFFER
    (Payload.texAddresses texAddressContents) Usage.GL_DYNAMIC_DRAW s.gl
  let gl := raise (env.fault Site.newTexAddressBuffer) ab.2
  let gl := raise (env.fault Site.bindTexAddressBuffer)
    (glBindBufferBase BufferTarget.GL_SHADER_STORAGE_BUFFER 1 ab.1 gl)
  let va := glGenVertexArrays gl
  let gl := raise (env.fault Site.genVertexArrays) va.2
  let gl := raise (env.fault Site.bindVertexArray) (glBindVertexArray va.1 gl)
  let e := glGetError gl
  (e.1 == GL_NO_ERROR, { obj := { s.obj with mTexAddressBuffer := ab.1, mVAO := va.1 }, gl := e.2 })

/-- Lines 37-47: the program loader `CreateProgramT`, a collaborator outside this
file.  It hands back a program handle (0 on failure) and the resolved uniform
locations. -/
def CreateProgramT (env : Env) (s : State) : State :=
  { obj := { s.obj with mProgram := env.program, mUniformLocation := env.uniformLocation }
    gl := raise (env.fault Site.createProgram)
      (if env.program = 0 then s.gl
       else { s.gl with created := s.gl.created ++ [Resource.program env.program] }) }

/-- The method `TexturedQuadsGLSparseBindlessTextureArray::Init`.  The first
component is the returned boolean, or the trap that stopped the call. -/
def Init (env : Env) (_vertices : List Vertex) (_indices : List Index)
    (_textures : List TextureDetailsPtr) (_objectCount : Nat) (s : State) :
    Except Trap Bool × State :=
  let base := TexturedQuadsSolution_Init env _indices _objectCount s.obj
  if base.1 = false then (Except.ok false, { s with obj := base.2 }) else
  -- Prerequisites
  let s1 : State :=
    { obj := { base.2 with mTexManagerUp := env.texManagerInit }
      gl := raise (env.fault Site.texManagerInit) s.gl }
  if env.texManagerInit = false then (Except.ok false, s1) else
  if env.glGetTextureHandleARB = false then (Except.ok false, s1) else
  -- Program
  let s2 := CreateProgramT env s1
  if s2.obj.mProgram = 0 then (Except.ok false, s2) else
  -- Textures
  let tex := createTextures env _textures 0 s2.obj.mTextures s2.gl
  let s3 : State := { obj := { s2.obj with mTextures := tex.1 }, gl := tex.2 }
  -- Buffers
  let s4 := initGeometryBuffers env _vertices _indices s3
  match buildTexAddressContents s4.obj.mTextures _objectCount with
  | Except.error trap => (Except.error trap, s4)
  | Except.ok texAddressContents =>
      let r := initTableBuffers env texAddressContents s4
      (Except.ok r.1, r.2)

/-- Lines 126-131: for each `u` below `xformCount`, in order, the draw
identifier is updated and one indexed draw of `mIndexCount` indices issued. -/
def drawLoop (obj : Solution) (xformCount : Nat) (gl : GLContext) : GLContext :=
  (List.range xformCount).foldl
    (fun gl u =>
      glDrawElements PrimitiveMode.GL_TRIANGLES obj.mIndexCount IndexType.GL_UNSIGNED_SHORT
        (glUniform1i obj.mUniformLocation.DrawID u gl))
    gl

/-- Lines 84-122: everything `Render` does before it looks at the number of
transforms: camera, program, input layout, fixed-function state, and the
upload of the whole transform list into the transform buffer. -/
def renderSetup (env : Env) (_transforms : List Matrix) (s : State) : GLContext :=
  let view_proj := env.viewProj s.obj.mProj
  let gl := glUseProgram s.obj.mProgram s.gl
  let gl := glUniformMatrix4fv s.obj.mUniformLocation.ViewProjection true view_proj gl
  -- Input Layout. First the IB
  let gl := glBindBuffer BufferTarget.GL_ELEMENT_ARRAY_BUFFER s.obj.mIndexBuffer gl
  -- Then the VBs.
  let gl := glBindBuffer BufferTarget.GL_ARRAY_BUFFER s.obj.mVertexBuffer gl
  let gl := glVertexAttribPointer 0 3 sizeofVertex offsetofPos gl
  let gl := glVertexAttribPointer 1 2 sizeofVertex offsetofTex gl
  let gl := glEnableVertexAttribArray 0 gl
  let gl := glEnableVertexAttribArray 1 gl
  -- Rasterizer State
  let gl := glEnable Capability.GL_CULL_FACE gl
  let gl := glCullFace FaceMode.GL_FRONT gl
  let gl := glFrontFace Winding.GL_CCW gl
  let gl := glDisable Capability.GL_SCISSOR_TEST gl
  -- Blend State
  let gl := glDisable Capability.GL_BLEND gl
  let gl := glColorMask true true true true gl
  -- Depth Stencil State
  let gl := glEnable Capability.GL_DEPTH_TEST gl
  let gl := glDepthMask true gl
  let gl := glBindBuffer BufferTarget.GL_SHADER_STORAGE_BUFFER s.obj.mTransformBuffer gl
  BufferData BufferTarget.GL_SHADER_STORAGE_BUFFER (Payload.transforms _transforms)
    Usage.GL_DYNAMIC_DRAW gl

/-- The method `TexturedQuadsGLSparseBindlessTextureArray::Render`.  The
assertion of line 124 is live: when it fails the call stops there, the context
keeping what the calls before it did. -/
def Render (env : Env) (_transforms : List Matrix) (s : State) : Except Trap Unit × State :=
  let gl := renderSetup env _transforms s
  let xformCount := _transforms.length
  if xformCount ≤ s.obj.mObjectCount then
    (Except.ok (), { s with gl := drawLoop s.obj xformCount gl })
  else
    (Except.error Trap.assertionFailed, { s with gl := gl })

/-- Framework helper `SafeDelete(ptr)` applied to an owned texture: the texture
object is destroyed. -/
def SafeDelete (t : Texture) (gl : GLContext) : GLContext :=
  { gl with deleted := gl.deleted ++ [Resource.texture t] }

/-- The method `TexturedQuadsGLSparseBindlessTextureArray::Shutdown`. -/
def Shutdown (s : State) : State :=
  let gl := glDisableVertexAttribArray 1 s.gl
  let gl := glDisableVertexAttribArray 0 gl
  let gl := s.obj.mTextures.foldl (fun gl t => SafeDelete t gl) gl
  let gl := glDeleteVertexArrays s.obj.mVAO gl
  let gl := glDeleteBuffers s.obj.mIndexBuffer gl
  let gl := glDeleteBuffers s.obj.mVertexBuffer gl
  let gl := glDeleteBuffers s.obj.mTransformBuffer gl
  let gl := glDeleteBuffers s.obj.mTexAddressBuffer gl
  let gl := glDeleteProgram s.obj.mProgram gl
  { obj := { s.obj with mTextures := [], mTexManagerUp := false }, gl := gl }

/-! ## Observations used by the properties -/

/-- A harness frame loop: `Render` once per transform list, stopping at the
first call that traps. -/
def renderFrames (env : Env) : List (List Matrix) → State → Except Trap Unit × State
  | [], s => (Except.ok (), s)
  | frame :: frames, s =>
      match Render env frame s with
      | (Except.ok _, s1) => renderFrames env frames s1
      | (Except.error trap, s1) => (Except.error trap, s1)

/-- Number of transforms held by the data store of the transform buffer. -/
def transformCount (s : State) : Nat :=
  match s.gl.store s.obj.mTransformBuffer with
  | some (_, Payload.transforms data) => data.length
  | _ => 0

/-- Whether a command is a draw. -/
def Command.isDraw : Command → Bool
  | Command.glDrawElements _ _ _ _ => true
  | _ => false

/-- The address table held by the data store of the texture-address buffer. -/
def texAddressTable (s : State) : Option (List TexAddress) :=
  match s.gl.store s.obj.mTexAddressBuffer with
  | some (_, Payload.texAddresses data) => some data
  | _ => none

/-- State in which `Init` reaches the table-building loop (line 61) when none
of the early returns of lines 23-47 is taken. -/
def stateBeforeTable (env : Env) (_vertices : List Vertex) (_indices : List Index)
    (_textures : List TextureDetailsPtr) (_objectCount : Nat) (s : State) : State :=
  let base := TexturedQuadsSolution_Init env _indices _objectCount s.obj
  let s1 : State :=
    { obj := { base.2 with mTexManagerUp := env.texManagerInit }
      gl := raise (env.fault Site.texManagerInit) s.gl }
  let s2 := CreateProgramT env s1
  let tex := createTextures env _textures 0 s2.obj.mTextures s2.gl
  initGeometryBuffers env _vertices _indices
    { obj := { s2.obj with mTextures := tex.1 }, gl := tex.2 }

/-- Commands issued between two states of the same command stream. -/
def issued (before after : State) : List Command :=
  after.gl.commands.drop before.gl.commands.length

/-! ## Sample inputs -/

/-- A context in its default state: nothing created, nothing bound, no error. -/
def sampleContext : GLContext :=
  { errorFlag := 0
    nextName := 1
    created := []
    deleted := []
    store := fun _ => none
    binding := fun _ => 0
    storageSlot := fun _ => 0
    vertexArray := 0
    program := 0
    attribPointer := fun _ => none
    attribEnabled := fun _ => false
    pipeline :=
      { cullFace := false
        cullFaceMode := FaceMode.GL_BACK
        frontFace := Winding.GL_CCW
        scissorTest := false
        blend := false
        colorMask := (true, true, true, true)
        depthTest := false
        depthMask := true }
    commands := [] }

/-- Collaborators that all succeed and never record an error. -/
def sampleEnv : Env :=
  { baseInit := true
    texManagerInit := true
    glGetTextureHandleARB := true
    program := 7
    uniformLocation := { ViewProjection := 0, DrawID := 1 }
    texAddress := fun n => 1000 + n
    fault := fun _ => 0
    viewProj := fun m => m }

/-- A freshly constructed solution in the default context. -/
def sampleState : State :=
  { obj := construct { cells := [] }, gl := sampleContext }

/-- The identity transform, as the words of its sixteen floats. -/
def identityMatrix : Matrix :=
  { cells := [0x3F800000, 0, 0, 0, 0, 0x3F800000, 0, 0, 0, 0, 0x3F800000, 0, 0, 0, 0, 0x3F800000] }

/-- The sample solution after `Init` with three indices, two texture
descriptors and four objects. -/
def sampleReady : State :=
  (Init sampleEnv [] [0, 1, 2] [50, 60] 4 sampleState).2

/-- Five identity transforms: one more than the sample object count. -/
def fiveTransforms : List Matrix :=
  [identityMatrix, identityMatrix, identityMatrix, identityMatrix, identityMatrix]

/-- Collaborators as in `sampleEnv`, except that the creation of the first
texture records `GL_OUT_OF_MEMORY` (0x0505). -/
def textureFaultEnv : Env :=
  { sampleEnv with
    fault := fun site =>
      match site with
      | Site.newTexture 0 => 0x0505
      | _ => 0 }

/-- The default context with `GL_INVALID_OPERATION` (0x0502) left pending by
whatever ran before. -/
def staleErrorContext : GLContext :=
  { sampleContext with errorFlag := 0x0502 }

/-- Collaborators as in `sampleEnv`, on a runtime without the bindless entry
point. -/
def noBindlessEnv : Env :=
  { sampleEnv with glGetTextureHandleARB := false }

/-- Collaborators as in `sampleEnv`, with a program loader that fails. -/
def noProgramEnv : Env :=
  { sampleEnv with program := 0 }

/-! ## Properties of the address table -/

theorem raise_errorFlag_eq_zero (code : Nat) (gl : GLContext) :
    (raise code gl).errorFlag = 0 ↔ gl.errorFlag = 0 ∧ code = 0 := by
  simp only [raise, GL_NO_ERROR]
  split <;> simp_all

theorem createTextures_details (env : Env) :
    ∀ (ds : List TextureDetailsPtr) (k : Nat) (acc : List Texture) (gl : GLContext),
      (createTextures env ds k acc gl).1.map Texture.details = acc.map Texture.details ++ ds := by
  intro ds
  induction ds with
  | nil => intro k acc gl; simp [createTextures]
  | cons d rest ih =>
      intro k acc gl
      simp [createTextures, ih, newTexture2DFromDetails]

theorem fillTexAddressContents_spec (mTextures : List Texture) (hM : 0 < mTextures.length) :
    ∀ (remaining dstIt srcIt : Nat) (contents : List TexAddress),
      srcIt ≤ mTextures.length → dstIt + remaining = contents.length →
      ∃ result, fillTexAddressContents mTextures remaining dstIt srcIt contents = Except.ok result ∧
        result.length = contents.length ∧
        (∀ j, j < dstIt → result[j]? = contents[j]?) ∧
        (∀ j, dstIt ≤ j → j < contents.length →
          result[j]? =
            (mTextures[(srcIt + (j - dstIt)) % mTextures.length]?).map Texture.address) := by
  intro remaining
  induction remaining with
  | zero =>
      intro dstIt srcIt contents _ hlen
      refine ⟨contents, by simp [fillTexAddressContents], rfl, fun _ _ => rfl, ?_⟩
      intro j h1 h2
      omega
  | succ n ih =>
      intro dstIt srcIt contents hsrc hlen
      have hsrc1 : (if srcIt = mTextures.length then 0 else srcIt) < mTextures.length := by
        split <;> omega
      have hmod : srcIt % mTextures.length = (if srcIt = mTextures.length then 0 else srcIt) := by
        split
        · next h => rw [h]; exact Nat.mod_self _
        · next h => exact Nat.mod_eq_of_lt (by omega)
      obtain ⟨t, ht⟩ : ∃ t, mTextures[if srcIt = mTextures.length then 0 else srcIt]? = some t :=
        ⟨mTextures[if srcIt = mTextures.length then 0 else srcIt], List.getElem?_eq_getElem hsrc1⟩
      obtain ⟨result, hres, hl, hlow, hhigh⟩ :=
        ih (dstIt + 1) ((if srcIt = mTextures.length then 0 else srcIt) + 1)
          (contents.set dstIt t.address) (by omega) (by simp; omega)
      refine ⟨result, ?_, by simpa using hl, ?_, ?_⟩
      · simp only [fillTexAddressContents, ht]
        exact hres
      · intro j hj
        rw [hlow j (by omega), List.getElem?_set_ne (by omega)]
      · intro j hj1 hj2
        rcases Nat.eq_or_lt_of_le hj1 with h | h
        · subst h
          rw [hlow dstIt (by omega), List.getElem?_set_self hj2]
          simp [hmod, ht]
        · rw [hhigh j (by omega) (by simpa using hj2)]
          have : ((if srcIt = mTextures.length then 0 else srcIt) + 1 + (j - (dstIt + 1)))
              % mTextures.length = (srcIt + (j - dstIt)) % mTextures.length := by
            rw [← hmod]
            have e : srcIt % mTextures.length + 1 + (j - (dstIt + 1))
                = srcIt % mTextures.length + (j - dstIt) := by omega
            rw [e, Nat.add_mod, Nat.mod_mod, ← Nat.add_mod]
          rw [this]

theorem buildTexAddressContents_spec (mTextures : List Texture) (hM : 0 < mTextures.length)
    (N : Nat) :
    ∃ table, buildTexAddressContents mTextures N = Except.ok table ∧ table.length = N ∧
      ∀ i, i < N → table[i]? = (mTextures[i % mTextures.length]?).map Texture.address := by
  obtain ⟨result, hres, hl, _, hhigh⟩ :=
    fillTexAddressContents_spec mTextures hM N 0 0 (List.replicate N 0) (Nat.zero_le _) (by simp)
  refine ⟨result, hres, by simpa using hl, ?_⟩
  intro i hi
  simpa using hhigh i (Nat.zero_le _) (by simpa using hi)

theorem Init_eq_of_prerequisites (env : Env) (_vertices : List Vertex) (_indices : List Index)
    (_textures : List TextureDetailsPtr) (_objectCount : Nat) (s : State)
    (hbase : env.baseInit = true) (htm : env.texManagerInit = true)
    (hbl : env.glGetTextureHandleARB = true) (hprog : env.program ≠ 0) :
    Init env _vertices _indices _textures _objectCount s =
      match buildTexAddressContents
          (stateBeforeTable env _vertices _indices _textures _objectCount s).obj.mTextures
          _objectCount with
      | Except.error trap =>
          (Except.error trap, stateBeforeTable env _vertices _indices _textures _objectCount s)
      | Except.ok table =>
          (Except.ok (initTableBuffers env table
              (stateBeforeTable env _vertices _indices _textures _objectCount s)).1,
           (initTableBuffers env table
              (stateBeforeTable env _vertices _indices _textures _objectCount s)).2) := by
  simp only [Init, stateBeforeTable, TexturedQuadsSolution_Init, CreateProgramT, hbase, htm, hbl,
    hprog, Bool.true_eq_false, if_false]

theorem stateBeforeTable_mTextures (env : Env) (_vertices : List Vertex) (_indices : List Index)
    (_textures : List TextureDetailsPtr) (_objectCount : Nat) (s : State) :
    (stateBeforeTable env _vertices _indices _textures _objectCount s).obj.mTextures.map
        Texture.details = s.obj.mTextures.map Texture.details ++ _textures := by
  simp [stateBeforeTable, initGeometryBuffers, CreateProgramT, TexturedQuadsSolution_Init,
    createTextures_details]

theorem initTableBuffers_table (env : Env) (table : List TexAddress) (s : State) :
    texAddressTable (initTableBuffers env table s).2 = some table ∧
    (initTableBuffers env table s).2.gl.storageSlot 1 =
      (initTableBuffers env table s).2.obj.mTexAddressBuffer ∧
    (initTableBuffers env table s).2.obj.mTextures = s.obj.mTextures := by
  simp [texAddressTable, initTableBuffers, NewBufferFromVector, glGenBuffers, glBindBuffer,
    BufferData, glBindBufferBase, glGenVertexArrays, glBindVertexArray, glGetError, raise]

/-- C1: for every object count and every descriptor list of size at least one,
`Init` (once past its early returns) leaves in the texture-address buffer a
table of exactly `_objectCount` entries; the owned textures were created from
the descriptors in input order, and entry `i` is the bindless address of the
texture created from descriptor `i mod M`. -/
theorem C1_table_is_cyclic (env : Env) (_vertices : List Vertex) (_indices : List Index)
    (_textures : List TextureDetailsPtr) (_objectCount : Nat) (proj : Matrix) (gl : GLContext)
    (hbase : env.baseInit = true) (htm : env.texManagerInit = true)
    (hbl : env.glGetTextureHandleARB = true) (hprog : env.program ≠ 0)
    (hM : 1 ≤ _textures.length) :
    ∃ table : List TexAddress,
      texAddressTable
          (Init env _vertices _indices _textures _objectCount
            { obj := construct proj, gl := gl }).2 = some table ∧
      table.length = _objectCount ∧
      (Init env _vertices _indices _textures _objectCount
          { obj := construct proj, gl := gl }).2.obj.mTextures.map Texture.details = _textures ∧
      ∀ i, i < _objectCount →
        ∃ t : Texture,
          (Init env _vertices _indices _textures _objectCount
              { obj := construct proj, gl := gl }).2.obj.mTextures[i % _textures.length]? = some t ∧
          _textures[i % _textures.length]? = some t.details ∧
          table[i]? = some t.address := by
  have hdet : (stateBeforeTable env _vertices _indices _textures _objectCount
      { obj := construct proj, gl := gl }).obj.mTextures.map Texture.details = _textures :=
    stateBeforeTable_mTextures env _vertices _indices _textures _objectCount
      { obj := construct proj, gl := gl }
  have hlen : (stateBeforeTable env _vertices _indices _textures _objectCount
      { obj := construct proj, gl := gl }).obj.mTextures.length = _textures.length := by
    have := congrArg List.length hdet
    simpa using this
  obtain ⟨table, hbuild, htl, hcyc⟩ := buildTexAddressContents_spec
    (stateBeforeTable env _vertices _indices _textures _objectCount
      { obj := construct proj, gl := gl }).obj.mTextures (by rw [hlen]; exact hM) _objectCount
  have hinit := Init_eq_of_prerequisites env _vertices _indices _textures _objectCount
    { obj := construct proj, gl := gl } hbase htm hbl hprog
  rw [hbuild] at hinit
  simp only at hinit
  obtain ⟨htab, _, htex⟩ := initTableBuffers_table env table
    (stateBeforeTable env _vertices _indices _textures _objectCount
      { obj := construct proj, gl := gl })
  rw [hinit]
  simp only
  rw [htex]
  refine ⟨table, htab, htl, hdet, ?_⟩
  intro i hi
  have hlt : i % _textures.length < _textures.length := Nat.mod_lt _ (by omega)
  have hget := hcyc i hi
  rw [hlen] at hget
  have hsome : (stateBeforeTable env _vertices _indices _textures _objectCount
      { obj := construct proj, gl := gl }).obj.mTextures[i % _textures.length]? =
      some ((stateBeforeTable env _vertices _indices _textures _objectCount
        { obj := construct proj, gl := gl }).obj.mTextures.get
          ⟨i % _textures.length, by rw [hlen]; exact hlt⟩) :=
    List.getElem?_eq_getElem _
  refine ⟨_, hsome, ?_, ?_⟩
  · have h1 := congrArg (fun l => l[i % _textures.length]?) hdet
    simp only [List.getElem?_map, hsome, Option.map_some'] at h1
    exact h1.symm
  · rw [hget, hsome]
    rfl

/-- C1 on the scenario of four objects and two textures: the table is
`[tex0, tex1, tex0, tex1]`, the sample addresses of the two textures being
1001 and 1002. -/
theorem C1_table_is_cyclic_witness :
    (∃ table : List TexAddress,
      texAddressTable (Init sampleEnv [] [0, 1, 2] [50, 60] 4 sampleState).2 = some table ∧
      table.length = 4 ∧
      (Init sampleEnv [] [0, 1, 2] [50, 60] 4 sampleState).2.obj.mTextures.map Texture.details
        = [50, 60] ∧
      ∀ i, i < 4 →
        ∃ t : Texture,
          (Init sampleEnv [] [0, 1, 2] [50, 60] 4 sampleState).2.obj.mTextures[i % 2]? = some t ∧
          [50, 60][i % 2]? = some t.details ∧
          table[i]? = some t.address) ∧
    (Init sampleEnv [] [0, 1, 2] [50, 60] 4 sampleState).2.obj.mTextures.map Texture.address
      = [1001, 1002] ∧
    texAddressTable (Init sampleEnv [] [0, 1, 2] [50, 60] 4 sampleState).2
      = some [1001, 1002, 1001, 1002] :=
  ⟨C1_table_is_cyclic sampleEnv [] [0, 1, 2] [50, 60] 4 { cells := [] } sampleContext rfl rfl rfl
    (by decide) (by decide), rfl, rfl⟩

theorem buildTexAddressContents_ok_iff (mTextures : List Texture) (_objectCount : Nat) :
    (∃ table, buildTexAddressContents mTextures _objectCount = Except.ok table) ↔
      (1 ≤ mTextures.length ∨ _objectCount = 0) := by
  constructor
  · rintro ⟨table, htable⟩
    by_contra hcon
    have hcon1 : mTextures.length = 0 ∧ 1 ≤ _objectCount := by omega
    obtain ⟨n, hn⟩ : ∃ n, _objectCount = n + 1 := ⟨_objectCount - 1, by omega⟩
    have hnil : mTextures = [] := List.length_eq_zero.mp hcon1.1
    subst hnil hn
    simp [buildTexAddressContents, fillTexAddressContents] at htable
  · rintro (h | h)
    · obtain ⟨table, htable, _⟩ := buildTexAddressContents_spec mTextures h _objectCount
      exact ⟨table, htable⟩
    · subst h
      exact ⟨[], by simp [buildTexAddressContents, fillTexAddressContents]⟩

theorem buildTexAddressContents_empty (_objectCount : Nat) (h : 1 ≤ _objectCount) :
    buildTexAddressContents [] _objectCount = Except.error (Trap.readPastEnd 0) := by
  obtain ⟨n, rfl⟩ : ∃ n, _objectCount = n + 1 := ⟨_objectCount - 1, by omega⟩
  simp [buildTexAddressContents, fillTexAddressContents]

/-- C10: the table-building loop reads `mTextures` only at valid positions
exactly when the texture list is non-empty or the object count is 0; with an
empty list and at least one object the very first iteration reads past the
end.  Accordingly `Init` on a fresh object, once past its early returns, stops
on that read exactly when no descriptor is supplied and the object count is at
least one. -/
theorem C10_table_reads_in_range_iff (mTextures : List Texture) (env : Env)
    (_vertices : List Vertex) (_indices : List Index) (_textures : List TextureDetailsPtr)
    (_objectCount : Nat) (proj : Matrix) (gl : GLContext) :
    ((∃ table, buildTexAddressContents mTextures _objectCount = Except.ok table) ↔
      (1 ≤ mTextures.length ∨ _objectCount = 0)) ∧
    (mTextures.length = 0 → 1 ≤ _objectCount →
      buildTexAddressContents mTextures _objectCount = Except.error (Trap.readPastEnd 0)) ∧
    (env.baseInit = true → env.texManagerInit = true → env.glGetTextureHandleARB = true →
      env.program ≠ 0 →
      ((Init env _vertices _indices _textures _objectCount
          { obj := construct proj, gl := gl }).1 = Except.error (Trap.readPastEnd 0) ↔
        (_textures.length = 0 ∧ 1 ≤ _objectCount))) := by
  refine ⟨buildTexAddressContents_ok_iff mTextures _objectCount, ?_, ?_⟩
  · intro h0 hN
    have hnil : mTextures = [] := List.length_eq_zero.mp h0
    subst hnil
    exact buildTexAddressContents_empty _objectCount hN
  · intro hbase htm hbl hprog
    have hdet : (stateBeforeTable env _vertices _indices _textures _objectCount
        { obj := construct proj, gl := gl }).obj.mTextures.map Texture.details = _textures :=
      stateBeforeTable_mTextures env _vertices _indices _textures _objectCount
        { obj := construct proj, gl := gl }
    have hlen : (stateBeforeTable env _vertices _indices _textures _objectCount
        { obj := construct proj, gl := gl }).obj.mTextures.length = _textures.length := by
      have := congrArg List.length hdet
      simpa using this
    have hinit := Init_eq_of_prerequisites env _vertices _indices _textures _objectCount
      { obj := construct proj, gl := gl } hbase htm hbl hprog
    rw [hinit]
    constructor
    · intro herr
      by_contra hcon
      have hok : 1 ≤ _textures.length ∨ _objectCount = 0 := by omega
      obtain ⟨table, hbuild⟩ :=
        (buildTexAddressContents_ok_iff _ _objectCount).mpr (by rw [hlen]; exact hok)
      rw [hbuild] at herr
      cases herr
    · rintro ⟨h0, hN⟩
      have hnil : (stateBeforeTable env _vertices _indices _textures _objectCount
          { obj := construct proj, gl := gl }).obj.mTextures = [] :=
        List.length_eq_zero.mp (by rw [hlen]; exact h0)
      rw [hnil, buildTexAddressContents_empty _objectCount hN]

/-- C10 on the sample solution given no descriptor and one object: the first
iteration of the loop reads past the end of the empty texture list. -/
theorem C10_table_reads_in_range_iff_witness :
    ((∃ table, buildTexAddressContents [] 1 = Except.ok table) ↔
      (1 ≤ ([] : List Texture).length ∨ 1 = 0)) ∧
    (([] : List Texture).length = 0 → 1 ≤ 1 →
      buildTexAddressContents [] 1 = Except.error (Trap.readPastEnd 0)) ∧
    (sampleEnv.baseInit = true → sampleEnv.texManagerInit = true →
      sampleEnv.glGetTextureHandleARB = true → sampleEnv.program ≠ 0 →
      ((Init sampleEnv [] [0, 1, 2] [] 1 sampleState).1 = Except.error (Trap.readPastEnd 0) ↔
        (([] : List TextureDetailsPtr).length = 0 ∧ 1 ≤ 1))) :=
  C10_table_reads_in_range_iff [] sampleEnv [] [0, 1, 2] [] 1 { cells := [] } sampleContext

/-! ## Properties of Render -/

theorem drawLoop_succ (obj : Solution) (n : Nat) (gl : GLContext) :
    drawLoop obj (n + 1) gl =
      glDrawElements PrimitiveMode.GL_TRIANGLES obj.mIndexCount IndexType.GL_UNSIGNED_SHORT
        (glUniform1i obj.mUniformLocation.DrawID n (drawLoop obj n gl)) := by
  simp only [drawLoop, List.range_succ, List.foldl_append, List.foldl_cons, List.foldl_nil]

theorem drawLoop_spec (obj : Solution) (n : Nat) (gl : GLContext) :
    (drawLoop obj n gl).commands =
        gl.commands ++ (List.range n).flatMap (fun k =>
          [Command.glUniform1i obj.mUniformLocation.DrawID k,
           Command.glDrawElements PrimitiveMode.GL_TRIANGLES obj.mIndexCount
             IndexType.GL_UNSIGNED_SHORT gl.pipeline]) ∧
    (drawLoop obj n gl).pipeline = gl.pipeline ∧
    (drawLoop obj n gl).store = gl.store := by
  induction n with
  | zero => simp [drawLoop]
  | succ n ih =>
      obtain ⟨hc, hp, hs⟩ := ih
      rw [drawLoop_succ]
      simp only [glDrawElements, glUniform1i, hc, hp, hs, List.range_succ,
        List.flatMap_append, List.flatMap_cons, List.flatMap_nil, List.append_nil,
        List.append_assoc, List.cons_append, List.nil_append, List.singleton_append, and_self]

theorem renderSetup_spec (env : Env) (_transforms : List Matrix) (s : State) :
    (renderSetup env _transforms s).commands =
        s.gl.commands ++ [Command.glUniformMatrix4fv s.obj.mUniformLocation.ViewProjection true
          (env.viewProj s.obj.mProj)] ∧
    (renderSetup env _transforms s).pipeline =
        { cullFace := true
          cullFaceMode := FaceMode.GL_FRONT
          frontFace := Winding.GL_CCW
          scissorTest := false
          blend := false
          colorMask := (true, true, true, true)
          depthTest := true
          depthMask := true } ∧
    (renderSetup env _transforms s).store s.obj.mTransformBuffer =
        some (Usage.GL_DYNAMIC_DRAW, Payload.transforms _transforms) := by
  simp [renderSetup, glUseProgram, glUniformMatrix4fv, glBindBuffer, glVertexAttribPointer,
    glEnableVertexAttribArray, glEnable, glDisable, glCullFace, glFrontFace, glColorMask,
    glDepthMask, BufferData, setCapability]

theorem issued_append (s t : State) (cs : List Command)
    (h : t.gl.commands = s.gl.commands ++ cs) : issued s t = cs := by
  simp [issued, h]

theorem Render_accepts (env : Env) (_transforms : List Matrix) (s : State)
    (h : _transforms.length ≤ s.obj.mObjectCount) :
    Render env _transforms s =
      (Except.ok (),
       { s with gl := (drawLoop s.obj _transforms.length (renderSetup env _transforms s)) }) := by
  simp [Render, h]

theorem Render_rejects (env : Env) (_transforms : List Matrix) (s : State)
    (h : s.obj.mObjectCount < _transforms.length) :
    Render env _transforms s =
      (Except.error Trap.assertionFailed, { s with gl := renderSetup env _transforms s }) := by
  simp [Render, Nat.not_le.mpr h]

theorem Render_issued (env : Env) (_transforms : List Matrix) (s : State)
    (h : _transforms.length ≤ s.obj.mObjectCount) :
    issued s (Render env _transforms s).2 =
      Command.glUniformMatrix4fv s.obj.mUniformLocation.ViewProjection true
          (env.viewProj s.obj.mProj) ::
        (List.range _transforms.length).flatMap (fun k =>
          [Command.glUniform1i s.obj.mUniformLocation.DrawID k,
           Command.glDrawElements PrimitiveMode.GL_TRIANGLES s.obj.mIndexCount
             IndexType.GL_UNSIGNED_SHORT
             { cullFace := true
               cullFaceMode := FaceMode.GL_FRONT
               frontFace := Winding.GL_CCW
               scissorTest := false
               blend := false
               colorMask := (true, true, true, true)
               depthTest := true
               depthMask := true }]) := by
  rw [Render_accepts env _transforms s h]
  apply issued_append
  obtain ⟨hc, hp, _⟩ := renderSetup_spec env _transforms s
  obtain ⟨hd, _, _⟩ := drawLoop_spec s.obj _transforms.length (renderSetup env _transforms s)
  simp only [hd, hc, hp, List.append_assoc, List.singleton_append]

/-- C3: `Render` traps on its assertion exactly when the transform list is
longer than the object count, and returns normally exactly otherwise; when it
traps, the only command it has issued is the view-projection update, so no
draw call at all is issued (the list is not truncated to `mObjectCount`
draws). -/
theorem C3_render_traps_iff_oversized (env : Env) (_transforms : List Matrix) (s : State) :
    ((Render env _transforms s).1 = Except.error Trap.assertionFailed ↔
      s.obj.mObjectCount < _transforms.length) ∧
    ((Render env _transforms s).1 = Except.ok () ↔
      _transforms.length ≤ s.obj.mObjectCount) ∧
    (s.obj.mObjectCount < _transforms.length →
      issued s (Render env _transforms s).2 =
        [Command.glUniformMatrix4fv s.obj.mUniformLocation.ViewProjection true
          (env.viewProj s.obj.mProj)] ∧
      (issued s (Render env _transforms s).2).countP Command.isDraw = 0) := by
  refine ⟨?_, ?_, ?_⟩
  · constructor
    · intro h
      by_contra hcon
      rw [Render_accepts env _transforms s (Nat.le_of_not_lt hcon)] at h
      cases h
    · intro h
      rw [Render_rejects env _transforms s h]
  · constructor
    · intro h
      by_contra hcon
      rw [Render_rejects env _transforms s (Nat.lt_of_not_le hcon)] at h
      cases h
    · intro h
      rw [Render_accepts env _transforms s h]
  · intro h
    have hi : issued s (Render env _transforms s).2 =
        [Command.glUniformMatrix4fv s.obj.mUniformLocation.ViewProjection true
          (env.viewProj s.obj.mProj)] := by
      rw [Render_rejects env _transforms s h]
      exact issued_append _ _ _ (renderSetup_spec env _transforms s).1
    refine ⟨hi, ?_⟩
    rw [hi]
    simp [Command.isDraw]

/-- C3 on the sample solution with five transforms for four objects: the call
traps and issues nothing but the view-projection update. -/
theorem C3_render_traps_iff_oversized_witness :
    ((Render sampleEnv fiveTransforms sampleReady).1 = Except.error Trap.assertionFailed ↔
      sampleReady.obj.mObjectCount < fiveTransforms.length) ∧
    ((Render sampleEnv fiveTransforms sampleReady).1 = Except.ok () ↔
      fiveTransforms.length ≤ sampleReady.obj.mObjectCount) ∧
    (sampleReady.obj.mObjectCount < fiveTransforms.length →
      issued sampleReady (Render sampleEnv fiveTransforms sampleReady).2 =
        [Command.glUniformMatrix4fv sampleReady.obj.mUniformLocation.ViewProjection true
          (sampleEnv.viewProj sampleReady.obj.mProj)] ∧
      (issued sampleReady (Render sampleEnv fiveTransforms sampleReady).2).countP
        Command.isDraw = 0) :=
  C3_render_traps_iff_oversized sampleEnv fiveTransforms sampleReady

/-- C9 as stated fails: the draw issued for one transform on the sample
solution runs with front faces culled, not back faces. -/
theorem C9_back_face_culling_counterexample :
    [identityMatrix].length ≤ sampleReady.obj.mObjectCount ∧
    ¬ (∀ c ∈ issued sampleReady (Render sampleEnv [identityMatrix] sampleReady).2,
        ∀ (mode : PrimitiveMode) (count : Nat) (type : IndexType) (p : Pipeline),
          c = Command.glDrawElements mode count type p →
          p = { cullFace := true
                cullFaceMode := FaceMode.GL_BACK
                frontFace := Winding.GL_CCW
                scissorTest := false
                blend := false
                colorMask := (true, true, true, true)
                depthTest := true
                depthMask := true }) := by
  refine ⟨by decide, ?_⟩
  intro hall
  have hmem : Command.glDrawElements PrimitiveMode.GL_TRIANGLES 3 IndexType.GL_UNSIGNED_SHORT
        { cullFace := true
          cullFaceMode := FaceMode.GL_FRONT
          frontFace := Winding.GL_CCW
          scissorTest := false
          blend := false
          colorMask := (true, true, true, true)
          depthTest := true
          depthMask := true }
      ∈ issued sampleReady (Render sampleEnv [identityMatrix] sampleReady).2 := by
    decide
  have hp := hall _ hmem _ _ _ _ rfl
  exact absurd hp (by decide)

/-- C9 amended: for every transform list accepted by `Render`, every draw it
issues runs with face culling enabled, FRONT faces culled, counter-clockwise
winding as front face, scissor test disabled, blending disabled with a full
color mask, depth test enabled and depth writes enabled. -/
theorem C9_pipeline_at_draws (env : Env) (_transforms : List Matrix) (s : State)
    (h : _transforms.length ≤ s.obj.mObjectCount) :
    ∀ c ∈ issued s (Render env _transforms s).2,
      ∀ (mode : PrimitiveMode) (count : Nat) (type : IndexType) (p : Pipeline),
        c = Command.glDrawElements mode count type p →
        p = { cullFace := true
              cullFaceMode := FaceMode.GL_FRONT
              frontFace := Winding.GL_CCW
              scissorTest := false
              blend := false
              colorMask := (true, true, true, true)
              depthTest := true
              depthMask := true } := by
  intro c hc mode count type p hcp
  rw [Render_issued env _transforms s h] at hc
  subst hcp
  simp only [List.mem_cons, List.mem_flatMap, List.mem_range, List.mem_singleton,
    List.not_mem_nil, or_false, reduceCtorEq, false_or] at hc
  obtain ⟨k, _, hk⟩ := hc
  injection hk with _ _ _ hpipe

/-- C9 amended, on the sample solution with four identity transforms. -/
theorem C9_pipeline_at_draws_witness :
    4 ≤ sampleReady.obj.mObjectCount ∧
    ∀ c ∈ issued sampleReady
        (Render sampleEnv [identityMatrix, identityMatrix, identityMatrix, identityMatrix]
          sampleReady).2,
      ∀ (mode : PrimitiveMode) (count : Nat) (type : IndexType) (p : Pipeline),
        c = Command.glDrawElements mode count type p →
        p = { cullFace := true
              cullFaceMode := FaceMode.GL_FRONT
              frontFace := Winding.GL_CCW
              scissorTest := false
              blend := false
              colorMask := (true, true, true, true)
              depthTest := true
              depthMask := true } :=
  ⟨by decide,
   C9_pipeline_at_draws sampleEnv [identityMatrix, identityMatrix, identityMatrix, identityMatrix]
     sampleReady (by decide)⟩

/-! ## The transform buffer across frames -/

theorem Init_true_prerequisites (env : Env) (_vertices : List Vertex) (_indices : List Index)
    (_textures : List TextureDetailsPtr) (_objectCount : Nat) (s : State)
    (h : (Init env _vertices _indices _textures _objectCount s).1 = Except.ok true) :
    env.baseInit = true ∧ env.texManagerInit = true ∧ env.glGetTextureHandleARB = true ∧
      env.program ≠ 0 := by
  cases hb : env.baseInit <;> cases ht : env.texManagerInit <;>
    cases hg : env.glGetTextureHandleARB <;>
    simp [Init, TexturedQuadsSolution_Init, CreateProgramT, hb, ht, hg] at h ⊢
  intro hp
  simp [hp] at h

theorem Init_true_state (env : Env) (_vertices : List Vertex) (_indices : List Index)
    (_textures : List TextureDetailsPtr) (_objectCount : Nat) (s : State)
    (h : (Init env _vertices _indices _textures _objectCount s).1 = Except.ok true) :
    (Init env _vertices _indices _textures _objectCount s).2.obj.mObjectCount = _objectCount ∧
    transformCount (Init env _vertices _indices _textures _objectCount s).2 = 0 := by
  obtain ⟨h1, h2, h3, h4⟩ := Init_true_prerequisites env _vertices _indices _textures
    _objectCount s h
  have hinit := Init_eq_of_prerequisites env _vertices _indices _textures _objectCount s
    h1 h2 h3 h4
  rw [hinit] at h ⊢
  cases hb : buildTexAddressContents
      (stateBeforeTable env _vertices _indices _textures _objectCount s).obj.mTextures
      _objectCount with
  | error trap =>
      rw [hb] at h
      cases h
  | ok table =>
      simp [transformCount, initTableBuffers, stateBeforeTable, initGeometryBuffers,
        NewBufferFromVector, glGenBuffers, glBindBuffer, BufferData, glBindBufferBase,
        glGenVertexArrays, glBindVertexArray, glGetError, raise, CreateProgramT,
        TexturedQuadsSolution_Init]

theorem Render_obj (env : Env) (_transforms : List Matrix) (s : State) :
    (Render env _transforms s).2.obj = s.obj := by
  simp only [Render]
  split <;> rfl

theorem Render_transformCount (env : Env) (_transforms : List Matrix) (s : State) :
    transformCount (Render env _transforms s).2 = _transforms.length := by
  have hs := (renderSetup_spec env _transforms s).2.2
  by_cases h : _transforms.length ≤ s.obj.mObjectCount
  · rw [Render_accepts env _transforms s h]
    simp only [transformCount, (drawLoop_spec s.obj _transforms.length _).2.2, hs]
  · rw [Render_rejects env _transforms s (Nat.lt_of_not_le h)]
    simp only [transformCount, hs]

theorem renderFrames_invariant (env : Env) :
    ∀ (frames : List (List Matrix)) (s : State),
      transformCount s ≤ s.obj.mObjectCount →
      (renderFrames env frames s).1 = Except.ok () →
      (renderFrames env frames s).2.obj = s.obj ∧
      transformCount (renderFrames env frames s).2 ≤ s.obj.mObjectCount := by
  intro frames
  induction frames with
  | nil =>
      intro s hs _
      exact ⟨rfl, hs⟩
  | cons frame frames ih =>
      intro s hs hok
      by_cases h : frame.length ≤ s.obj.mObjectCount
      · have hacc := Render_accepts env frame s h
        have hobj := Render_obj env frame s
        have hcnt := Render_transformCount env frame s
        rw [hacc] at hobj hcnt
        simp only [renderFrames, hacc] at hok ⊢
        have := ih _ (by rw [hcnt, hobj]; exact h) hok
        rw [hobj] at this
        exact this
      · have hrej := Render_rejects env frame s (Nat.lt_of_not_le h)
        simp only [renderFrames, hrej] at hok
        cases hok

/-- C8 as stated fails: after a successful `Init` with four objects, a `Render`
call with five transforms uploads all five into the transform buffer and only
then traps, so the buffer holds more transforms than the object count. -/
theorem C8_upload_precedes_assertion_counterexample :
    (Init sampleEnv [] [0, 1, 2] [50, 60] 4 sampleState).1 = Except.ok true ∧
    (Render sampleEnv fiveTransforms sampleReady).1 = Except.error Trap.assertionFailed ∧
    (Render sampleEnv fiveTransforms sampleReady).2.obj.mObjectCount = 4 ∧
    transformCount (Render sampleEnv fiveTransforms sampleReady).2 = 5 ∧
    ¬ (transformCount (Render sampleEnv fiveTransforms sampleReady).2 ≤
        (Render sampleEnv fiveTransforms sampleReady).2.obj.mObjectCount) := by
  refine ⟨rfl, rfl, by decide, by decide, by decide⟩

/-- C8 amended: in every state reached by a successful `Init` followed by a
sequence of `Render` calls that all return, the transform buffer holds at most
`_objectCount` transforms; a further `Render` call with more transforms than
that uploads its whole list into the transform buffer and then traps on the
assertion. -/
theorem C8_transform_count_bounded_while_frames_return (env : Env) (_vertices : List Vertex)
    (_indices : List Index) (_textures : List TextureDetailsPtr) (_objectCount : Nat)
    (s : State) (frames : List (List Matrix)) (extra : List Matrix)
    (hinit : (Init env _vertices _indices _textures _objectCount s).1 = Except.ok true)
    (hframes : (renderFrames env frames
      (Init env _vertices _indices _textures _objectCount s).2).1 = Except.ok ()) :
    (renderFrames env frames
      (Init env _vertices _indices _textures _objectCount s).2).2.obj.mObjectCount
        = _objectCount ∧
    transformCount (renderFrames env frames
      (Init env _vertices _indices _textures _objectCount s).2).2 ≤ _objectCount ∧
    (_objectCount < extra.length →
      (Render env extra (renderFrames env frames
        (Init env _vertices _indices _textures _objectCount s).2).2).1
          = Except.error Trap.assertionFailed ∧
      transformCount (Render env extra (renderFrames env frames
        (Init env _vertices _indices _textures _objectCount s).2).2).2 = extra.length) := by
  obtain ⟨hN, h0⟩ := Init_true_state env _vertices _indices _textures _objectCount s hinit
  obtain ⟨hobj, hcnt⟩ := renderFrames_invariant env frames
    (Init env _vertices _indices _textures _objectCount s).2 (by rw [h0]; exact Nat.zero_le _)
    hframes
  rw [hN] at hcnt
  have hN2 : (renderFrames env frames
      (Init env _vertices _indices _textures _objectCount s).2).2.obj.mObjectCount
        = _objectCount := by rw [hobj, hN]
  refine ⟨hN2, hcnt, ?_⟩
  intro hbig
  refine ⟨?_, Render_transformCount env extra _⟩
  rw [Render_rejects env extra _ (by rw [hN2]; exact hbig)]

/-- C8 amended, on the sample solution: two frames that return, then a frame
of five transforms for four objects. -/
theorem C8_transform_count_bounded_while_frames_return_witness :
    (Init sampleEnv [] [0, 1, 2] [50, 60] 4 sampleState).1 = Except.ok true ∧
    (renderFrames sampleEnv
      [[identityMatrix, identityMatrix, identityMatrix, identityMatrix], [identityMatrix]]
      (Init sampleEnv [] [0, 1, 2] [50, 60] 4 sampleState).2).1 = Except.ok () ∧
    (renderFrames sampleEnv
      [[identityMatrix, identityMatrix, identityMatrix, identityMatrix], [identityMatrix]]
      (Init sampleEnv [] [0, 1, 2] [50, 60] 4 sampleState).2).2.obj.mObjectCount = 4 ∧
    transformCount (renderFrames sampleEnv
      [[identityMatrix, identityMatrix, identityMatrix, identityMatrix], [identityMatrix]]
      (Init sampleEnv [] [0, 1, 2] [50, 60] 4 sampleState).2).2 ≤ 4 ∧
    (4 < fiveTransforms.length →
      (Render sampleEnv fiveTransforms (renderFrames sampleEnv
        [[identityMatrix, identityMatrix, identityMatrix, identityMatrix], [identityMatrix]]
        (Init sampleEnv [] [0, 1, 2] [50, 60] 4 sampleState).2).2).1
          = Except.error Trap.assertionFailed ∧
      transformCount (Render sampleEnv fiveTransforms (renderFrames sampleEnv
        [[identityMatrix, identityMatrix, identityMatrix, identityMatrix], [identityMatrix]]
        (Init sampleEnv [] [0, 1, 2] [50, 60] 4 sampleState).2).2).2 = fiveTransforms.length) :=
  ⟨rfl, rfl,
   C8_transform_count_bounded_while_frames_return sampleEnv [] [0, 1, 2] [50, 60] 4 sampleState
     [[identityMatrix, identityMatrix, identityMatrix, identityMatrix], [identityMatrix]]
     fiveTransforms rfl rfl⟩

/-! ## Early returns of Init -/

/-- C4: on a runtime without the bindless entry point, `Init` returns false
(it does not trap), whatever the vertices, indices, descriptors and object
count; no texture, program or buffer has been created, the owned texture list
and every handle member are as before, and no buffer data store has changed. -/
theorem C4_no_bindless_support_returns_false (env : Env) (_vertices : List Vertex)
    (_indices : List Index) (_textures : List TextureDetailsPtr) (_objectCount : Nat) (s : State)
    (h : env.glGetTextureHandleARB = false) :
    (Init env _vertices _indices _textures _objectCount s).1 = Except.ok false ∧
    (Init env _vertices _indices _textures _objectCount s).2.gl.created = s.gl.created ∧
    (Init env _vertices _indices _textures _objectCount s).2.gl.store = s.gl.store ∧
    (Init env _vertices _indices _textures _objectCount s).2.obj.mTextures = s.obj.mTextures ∧
    (Init env _vertices _indices _textures _objectCount s).2.obj.mProgram = s.obj.mProgram ∧
    (Init env _vertices _indices _textures _objectCount s).2.obj.mVertexBuffer
      = s.obj.mVertexBuffer ∧
    (Init env _vertices _indices _textures _objectCount s).2.obj.mIndexBuffer
      = s.obj.mIndexBuffer ∧
    (Init env _vertices _indices _textures _objectCount s).2.obj.mTransformBuffer
      = s.obj.mTransformBuffer ∧
    (Init env _vertices _indices _textures _objectCount s).2.obj.mTexAddressBuffer
      = s.obj.mTexAddressBuffer := by
  cases hb : env.baseInit <;> cases ht : env.texManagerInit <;>
    simp [Init, TexturedQuadsSolution_Init, raise, hb, ht, h]

/-- C4 on the sample inputs, with the bindless entry point absent. -/
theorem C4_no_bindless_support_returns_false_witness :
    noBindlessEnv.glGetTextureHandleARB = false ∧
    (Init noBindlessEnv [] [0, 1, 2] [50, 60] 4 sampleState).1 = Except.ok false ∧
    (Init noBindlessEnv [] [0, 1, 2] [50, 60] 4 sampleState).2.gl.created
      = sampleState.gl.created ∧
    (Init noBindlessEnv [] [0, 1, 2] [50, 60] 4 sampleState).2.gl.store = sampleState.gl.store ∧
    (Init noBindlessEnv [] [0, 1, 2] [50, 60] 4 sampleState).2.obj.mTextures
      = sampleState.obj.mTextures ∧
    (Init noBindlessEnv [] [0, 1, 2] [50, 60] 4 sampleState).2.obj.mProgram
      = sampleState.obj.mProgram ∧
    (Init noBindlessEnv [] [0, 1, 2] [50, 60] 4 sampleState).2.obj.mVertexBuffer
      = sampleState.obj.mVertexBuffer ∧
    (Init noBindlessEnv [] [0, 1, 2] [50, 60] 4 sampleState).2.obj.mIndexBuffer
      = sampleState.obj.mIndexBuffer ∧
    (Init noBindlessEnv [] [0, 1, 2] [50, 60] 4 sampleState).2.obj.mTransformBuffer
      = sampleState.obj.mTransformBuffer ∧
    (Init noBindlessEnv [] [0, 1, 2] [50, 60] 4 sampleState).2.obj.mTexAddressBuffer
      = sampleState.obj.mTexAddressBuffer :=
  ⟨rfl, C4_no_bindless_support_returns_false noBindlessEnv [] [0, 1, 2] [50, 60] 4 sampleState rfl⟩

/-- C5: when the program loader returns handle 0, `Init` returns false, and
that call has created no GPU object at all: in particular none of the vertex,
index, transform and texture-address buffers exists, no buffer data store has
changed and the four buffer handle members are as before. -/
theorem C5_program_failure_allocates_no_buffer (env : Env) (_vertices : List Vertex)
    (_indices : List Index) (_textures : List TextureDetailsPtr) (_objectCount : Nat) (s : State)
    (h : env.program = 0) :
    (Init env _vertices _indices _textures _objectCount s).1 = Except.ok false ∧
    (Init env _vertices _indices _textures _objectCount s).2.gl.created = s.gl.created ∧
    (Init env _vertices _indices _textures _objectCount s).2.gl.store = s.gl.store ∧
    (Init env _vertices _indices _textures _objectCount s).2.obj.mVertexBuffer
      = s.obj.mVertexBuffer ∧
    (Init env _vertices _indices _textures _objectCount s).2.obj.mIndexBuffer
      = s.obj.mIndexBuffer ∧
    (Init env _vertices _indices _textures _objectCount s).2.obj.mTransformBuffer
      = s.obj.mTransformBuffer ∧
    (Init env _vertices _indices _textures _objectCount s).2.obj.mTexAddressBuffer
      = s.obj.mTexAddressBuffer := by
  cases hb : env.baseInit <;> cases ht : env.texManagerInit <;>
    cases hg : env.glGetTextureHandleARB <;>
    simp [Init, TexturedQuadsSolution_Init, CreateProgramT, raise, hb, ht, hg, h]

/-- C5 on the sample inputs, with a program loader that fails. -/
theorem C5_program_failure_allocates_no_buffer_witness :
    noProgramEnv.program = 0 ∧
    (Init noProgramEnv [] [0, 1, 2] [50, 60] 4 sampleState).1 = Except.ok false ∧
    (Init noProgramEnv [] [0, 1, 2] [50, 60] 4 sampleState).2.gl.created
      = sampleState.gl.created ∧
    (Init noProgramEnv [] [0, 1, 2] [50, 60] 4 sampleState).2.gl.store = sampleState.gl.store ∧
    (Init noProgramEnv [] [0, 1, 2] [50, 60] 4 sampleState).2.obj.mVertexBuffer
      = sampleState.obj.mVertexBuffer ∧
    (Init noProgramEnv [] [0, 1, 2] [50, 60] 4 sampleState).2.obj.mIndexBuffer
      = sampleState.obj.mIndexBuffer ∧
    (Init noProgramEnv [] [0, 1, 2] [50, 60] 4 sampleState).2.obj.mTransformBuffer
      = sampleState.obj.mTransformBuffer ∧
    (Init noProgramEnv [] [0, 1, 2] [50, 60] 4 sampleState).2.obj.mTexAddressBuffer
      = sampleState.obj.mTexAddressBuffer :=
  ⟨rfl, C5_program_failure_allocates_no_buffer noProgramEnv [] [0, 1, 2] [50, 60] 4 sampleState rfl⟩

/-! ## Shutdown -/

theorem foldl_SafeDelete_deleted :
    ∀ (ts : List Texture) (gl : GLContext),
      (ts.foldl (fun gl t => SafeDelete t gl) gl).deleted
        = gl.deleted ++ ts.map Resource.texture := by
  intro ts
  induction ts with
  | nil => intro gl; simp
  | cons t ts ih =>
      intro gl
      rw [List.foldl_cons, ih]
      simp [SafeDelete]

theorem Shutdown_spec (s : State) :
    (Shutdown s).obj.mTextures = [] ∧
    (Shutdown s).gl.deleted =
      s.gl.deleted ++ s.obj.mTextures.map Resource.texture ++
        [Resource.vertexArray s.obj.mVAO, Resource.buffer s.obj.mIndexBuffer,
         Resource.buffer s.obj.mVertexBuffer, Resource.buffer s.obj.mTransformBuffer,
         Resource.buffer s.obj.mTexAddressBuffer, Resource.program s.obj.mProgram] := by
  simp [Shutdown, glDeleteProgram, glDeleteBuffers, glDeleteVertexArrays,
    foldl_SafeDelete_deleted, glDisableVertexAttribArray]

/-- C7: in the state left by a successful `Init`, `Shutdown` destroys every
texture of the owned list (each one is among the destroyed objects afterwards)
and leaves the owned list empty, so no texture, released or not, can be
reached through it any more. -/
theorem C7_shutdown_releases_owned_textures (env : Env) (_vertices : List Vertex)
    (_indices : List Index) (_textures : List TextureDetailsPtr) (_objectCount : Nat) (s : State)
    (hinit : (Init env _vertices _indices _textures _objectCount s).1 = Except.ok true) :
    (∀ t ∈ (Init env _vertices _indices _textures _objectCount s).2.obj.mTextures,
      Resource.texture t ∈
        (Shutdown (Init env _vertices _indices _textures _objectCount s).2).gl.deleted) ∧
    (Shutdown (Init env _vertices _indices _textures _objectCount s).2).obj.mTextures = [] ∧
    (∀ t : Texture,
      t ∉ (Shutdown (Init env _vertices _indices _textures _objectCount s).2).obj.mTextures) ∧
    (Init env _vertices _indices _textures _objectCount s).2.obj.mTextures.map Texture.details
      = s.obj.mTextures.map Texture.details ++ _textures := by
  obtain ⟨hnil, hdel⟩ := Shutdown_spec (Init env _vertices _indices _textures _objectCount s).2
  refine ⟨?_, hnil, ?_, ?_⟩
  · intro t ht
    rw [hdel]
    simp only [List.mem_append, List.mem_map]
    exact Or.inl (Or.inr ⟨t, ht, rfl⟩)
  · intro t
    rw [hnil]
    exact List.not_mem_nil t
  · obtain ⟨h1, h2, h3, h4⟩ := Init_true_prerequisites env _vertices _indices _textures
      _objectCount s hinit
    have hi := Init_eq_of_prerequisites env _vertices _indices _textures _objectCount s
      h1 h2 h3 h4
    rw [hi] at hinit ⊢
    cases hb : buildTexAddressContents
        (stateBeforeTable env _vertices _indices _textures _objectCount s).obj.mTextures
        _objectCount with
    | error trap =>
        rw [hb] at hinit
        cases hinit
    | ok table =>
        simp only
        rw [(initTableBuffers_table env table _).2.2]
        exact stateBeforeTable_mTextures env _vertices _indices _textures _objectCount s

/-- C7 on the sample solution: both textures are destroyed and the owned list
is empty. -/
theorem C7_shutdown_releases_owned_textures_witness :
    (Init sampleEnv [] [0, 1, 2] [50, 60] 4 sampleState).1 = Except.ok true ∧
    (∀ t ∈ (Init sampleEnv [] [0, 1, 2] [50, 60] 4 sampleState).2.obj.mTextures,
      Resource.texture t ∈
        (Shutdown (Init sampleEnv [] [0, 1, 2] [50, 60] 4 sampleState).2).gl.deleted) ∧
    (Shutdown (Init sampleEnv [] [0, 1, 2] [50, 60] 4 sampleState).2).obj.mTextures = [] ∧
    (∀ t : Texture,
      t ∉ (Shutdown (Init sampleEnv [] [0, 1, 2] [50, 60] 4 sampleState).2).obj.mTextures) ∧
    (Init sampleEnv [] [0, 1, 2] [50, 60] 4 sampleState).2.obj.mTextures.map Texture.details
      = sampleState.obj.mTextures.map Texture.details ++ [50, 60] :=
  ⟨rfl, C7_shutdown_releases_owned_textures sampleEnv [] [0, 1, 2] [50, 60] 4 sampleState rfl⟩

/-! ## The error query at the end of Init -/

theorem createTextures_errorFlag (env : Env) :
    ∀ (ds : List TextureDetailsPtr) (k : Nat) (acc : List Texture) (gl : GLContext),
      (createTextures env ds k acc gl).2.errorFlag = 0 ↔
        gl.errorFlag = 0 ∧ ∀ j, j < ds.length → env.fault (Site.newTexture (k + j)) = 0 := by
  intro ds
  induction ds with
  | nil => intro k acc gl; simp [createTextures]
  | cons d rest ih =>
      intro k acc gl
      simp only [createTextures, ih, raise_errorFlag_eq_zero, newTexture2DFromDetails,
        List.length_cons]
      constructor
      · rintro ⟨⟨h0, hk⟩, hrest⟩
        refine ⟨h0, ?_⟩
        intro j hj
        rcases Nat.eq_zero_or_pos j with hj0 | hjpos
        · subst hj0
          simpa using hk
        · have := hrest (j - 1) (by omega)
          have e : k + 1 + (j - 1) = k + j := by omega
          rwa [e] at this
      · rintro ⟨h0, hall⟩
        refine ⟨⟨h0, by simpa using hall 0 (by omega)⟩, ?_⟩
        intro j hj
        have := hall (j + 1) (by omega)
        have e : k + (j + 1) = k + 1 + j := by omega
        rwa [e] at this

theorem stateBeforeTable_errorFlag (env : Env) (_vertices : List Vertex) (_indices : List Index)
    (_textures : List TextureDetailsPtr) (_objectCount : Nat) (s : State) :
    (stateBeforeTable env _vertices _indices _textures _objectCount s).gl.errorFlag = 0 ↔
      s.gl.errorFlag = 0 ∧ env.fault Site.texManagerInit = 0 ∧ env.fault Site.createProgram = 0 ∧
      (∀ k, k < _textures.length → env.fault (Site.newTexture k) = 0) ∧
      env.fault Site.newVertexBuffer = 0 ∧ env.fault Site.newIndexBuffer = 0 ∧
      env.fault Site.genTransformBuffer = 0 ∧ env.fault Site.bindTransformBuffer = 0 := by
  have hprog : ∀ g : GLContext,
      (if env.program = 0 then g
        else { g with created := g.created ++ [Resource.program env.program] }).errorFlag
        = g.errorFlag := by
    intro g
    split <;> rfl
  simp only [stateBeforeTable, initGeometryBuffers, CreateProgramT, TexturedQuadsSolution_Init,
    NewBufferFromVector, glGenBuffers, glBindBuffer, BufferData, glBindBufferBase,
    raise_errorFlag_eq_zero, createTextures_errorFlag, hprog, Nat.zero_add]
  tauto

theorem initTableBuffers_result (env : Env) (table : List TexAddress) (s : State) :
    (initTableBuffers env table s).1 = true ↔
      s.gl.errorFlag = 0 ∧ env.fault Site.newTexAddressBuffer = 0 ∧
      env.fault Site.bindTexAddressBuffer = 0 ∧ env.fault Site.genVertexArrays = 0 ∧
      env.fault Site.bindVertexArray = 0 := by
  simp only [initTableBuffers, NewBufferFromVector, glGenBuffers, glBindBuffer, BufferData,
    glBindBufferBase, glGenVertexArrays, glBindVertexArray, glGetError, GL_NO_ERROR,
    beq_iff_eq, raise_errorFlag_eq_zero]
  tauto

/-- C6 as stated fails: with steps 1-4 succeeding and no error recorded by any
call of steps 6-9, an error recorded while the first texture is created (step
5, before step 6) is still pending at the final query and makes `Init` return
false; so does an error already pending when `Init` is entered, with no error
recorded by any call of `Init` at all. -/
theorem C6_error_before_step6_counterexample :
    textureFaultEnv.baseInit = true ∧ textureFaultEnv.texManagerInit = true ∧
    textureFaultEnv.glGetTextureHandleARB = true ∧ textureFaultEnv.program ≠ 0 ∧
    (textureFaultEnv.fault Site.newVertexBuffer = 0 ∧
      textureFaultEnv.fault Site.newIndexBuffer = 0 ∧
      textureFaultEnv.fault Site.genTransformBuffer = 0 ∧
      textureFaultEnv.fault Site.bindTransformBuffer = 0 ∧
      textureFaultEnv.fault Site.newTexAddressBuffer = 0 ∧
      textureFaultEnv.fault Site.bindTexAddressBuffer = 0 ∧
      textureFaultEnv.fault Site.genVertexArrays = 0 ∧
      textureFaultEnv.fault Site.bindVertexArray = 0) ∧
    sampleState.gl.errorFlag = 0 ∧
    (Init textureFaultEnv [] [0, 1, 2] [50, 60] 4 sampleState).1 = Except.ok false ∧
    (Init sampleEnv [] [0, 1, 2] [50, 60] 4
      { obj := construct { cells := [] }, gl := staleErrorContext }).1 = Except.ok false := by
  refine ⟨rfl, rfl, rfl, by decide, ⟨rfl, rfl, rfl, rfl, rfl, rfl, rfl, rfl⟩, rfl, rfl, rfl⟩

/-- C6 amended: given that steps 1-4 succeed and that the table build stays in
range (a descriptor is supplied or the object count is 0), `Init` returns, and
it returns true exactly when the error flag read by its single, final query is
clear: no error was pending on entry and none was recorded at any call site of
`Init`, those before step 6 (texture manager, program loader, texture
creation) included. -/
theorem C6_init_true_iff_flag_clear (env : Env) (_vertices : List Vertex)
    (_indices : List Index) (_textures : List TextureDetailsPtr) (_objectCount : Nat)
    (proj : Matrix) (gl : GLContext)
    (hbase : env.baseInit = true) (htm : env.texManagerInit = true)
    (hbl : env.glGetTextureHandleARB = true) (hprog : env.program ≠ 0)
    (hrange : 1 ≤ _textures.length ∨ _objectCount = 0) :
    (∃ b, (Init env _vertices _indices _textures _objectCount
        { obj := construct proj, gl := gl }).1 = Except.ok b) ∧
    ((Init env _vertices _indices _textures _objectCount
        { obj := construct proj, gl := gl }).1 = Except.ok true ↔
      gl.errorFlag = 0 ∧ env.fault Site.texManagerInit = 0 ∧ env.fault Site.createProgram = 0 ∧
      (∀ k, k < _textures.length → env.fault (Site.newTexture k) = 0) ∧
      env.fault Site.newVertexBuffer = 0 ∧ env.fault Site.newIndexBuffer = 0 ∧
      env.fault Site.genTransformBuffer = 0 ∧ env.fault Site.bindTransformBuffer = 0 ∧
      env.fault Site.newTexAddressBuffer = 0 ∧ env.fault Site.bindTexAddressBuffer = 0 ∧
      env.fault Site.genVertexArrays = 0 ∧ env.fault Site.bindVertexArray = 0) := by
  have hdet : (stateBeforeTable env _vertices _indices _textures _objectCount
      { obj := construct proj, gl := gl }).obj.mTextures.map Texture.details = _textures :=
    stateBeforeTable_mTextures env _vertices _indices _textures _objectCount
      { obj := construct proj, gl := gl }
  have hlen : (stateBeforeTable env _vertices _indices _textures _objectCount
      { obj := construct proj, gl := gl }).obj.mTextures.length = _textures.length := by
    have := congrArg List.length hdet
    simpa using this
  obtain ⟨table, hbuild⟩ := (buildTexAddressContents_ok_iff _ _objectCount).mpr (by rw [hlen]; exact hrange)
  have hinit := Init_eq_of_prerequisites env _vertices _indices _textures _objectCount
    { obj := construct proj, gl := gl } hbase htm hbl hprog
  rw [hbuild] at hinit
  simp only at hinit
  rw [hinit]
  refine ⟨⟨_, rfl⟩, ?_⟩
  have hflag := stateBeforeTable_errorFlag env _vertices _indices _textures _objectCount
    { obj := construct proj, gl := gl }
  have hres := initTableBuffers_result env table
    (stateBeforeTable env _vertices _indices _textures _objectCount
      { obj := construct proj, gl := gl })
  constructor
  · intro h
    have hb : (initTableBuffers env table
        (stateBeforeTable env _vertices _indices _textures _objectCount
          { obj := construct proj, gl := gl })).1 = true := by
      injection h
    obtain ⟨h0, h1, h2, h3, h4⟩ := hres.mp hb
    obtain ⟨g0, g1, g2, g3, g4, g5, g6, g7⟩ := hflag.mp h0
    exact ⟨g0, g1, g2, g3, g4, g5, g6, g7, h1, h2, h3, h4⟩
  · rintro ⟨g0, g1, g2, g3, g4, g5, g6, g7, h1, h2, h3, h4⟩
    have h0 := hflag.mpr ⟨g0, g1, g2, g3, g4, g5, g6, g7⟩
    rw [hres.mpr ⟨h0, h1, h2, h3, h4⟩]

/-- C6 amended, on the sample inputs, where no error is ever recorded. -/
theorem C6_init_true_iff_flag_clear_witness :
    (∃ b, (Init sampleEnv [] [0, 1, 2] [50, 60] 4 sampleState).1 = Except.ok b) ∧
    ((Init sampleEnv [] [0, 1, 2] [50, 60] 4 sampleState).1 = Except.ok true ↔
      sampleContext.errorFlag = 0 ∧ sampleEnv.fault Site.texManagerInit = 0 ∧
      sampleEnv.fault Site.createProgram = 0 ∧
      (∀ k, k < [50, 60].length → sampleEnv.fault (Site.newTexture k) = 0) ∧
      sampleEnv.fault Site.newVertexBuffer = 0 ∧ sampleEnv.fault Site.newIndexBuffer = 0 ∧
      sampleEnv.fault Site.genTransformBuffer = 0 ∧ sampleEnv.fault Site.bindTransformBuffer = 0 ∧
      sampleEnv.fault Site.newTexAddressBuffer = 0 ∧
      sampleEnv.fault Site.bindTexAddressBuffer = 0 ∧
      sampleEnv.fault Site.genVertexArrays = 0 ∧ sampleEnv.fault Site.bindVertexArray = 0) :=
  C6_init_true_iff_flag_clear sampleEnv [] [0, 1, 2] [50, 60] 4 { cells := [] } sampleContext
    rfl rfl rfl (by decide) (Or.inl (by decide))

end TexturedQuads
